import Mathlib

/-!
Shallow embedding of the realtime-collab backend (auth service, task service,
shared JWT utilities) and proofs about the claims of its specification.

The embedding models:
  * `shared/auth_utils.py` — JWT creation/decoding (the `jose` library is
    modelled as an abstract signed container), password hashing (bcrypt is
    modelled as an abstract deterministic hash);
  * `shared/models.py` — the data model (users, refresh tokens, teams,
    memberships, projects, tasks);
  * `auth-service/main.py` — `get_current_user`, `login`, `refresh_token`
    liveness query, `logout`, `verify_token`;
  * `task-service/main.py` — `get_current_user`, `get_task`, `update_task`,
    `delete_task`, `add_team_member`, `publish_event`.

Time is a natural-number parameter (`now`).  Fallible endpoints return
`Except ApiError _`; Python exceptions other than `HTTPException` (the
`JWTError` raised by `decode_token`, a Redis publish failure) are modelled by
the `ApiError.raised` constructor, which FastAPI turns into a 500 response,
not the handler's own error shape.
-/

namespace Collab

/-! ## Enums from `shared/models.py` -/

/-- Decidable equality on `Except`, so that runs of the embedded endpoints
can be compared by `decide`. -/
instance instDecidableEqExcept {ε α : Type} [DecidableEq ε] [DecidableEq α] :
    DecidableEq (Except ε α)
  | .ok a, .ok b =>
    if h : a = b then .isTrue (by rw [h])
    else .isFalse (by intro hh; cases hh; exact h rfl)
  | .ok _, .error _ => .isFalse (by intro h; cases h)
  | .error _, .ok _ => .isFalse (by intro h; cases h)
  | .error e, .error f =>
    if h : e = f then .isTrue (by rw [h])
    else .isFalse (by intro hh; cases hh; exact h rfl)

inductive TaskStatus
  | todo | in_progress | in_review | done | archived
deriving DecidableEq, Repr

inductive TaskPriority
  | low | medium | high | urgent
deriving DecidableEq, Repr

inductive TeamRole
  | owner | admin | member | viewer
deriving DecidableEq, Repr

/-! ## JWT model (`shared/auth_utils.py` together with the `jose` library)

A JWT is either a malformed string or a signed container holding its payload
and the secret it was signed with.  `jose.jwt.decode` checks the signature
(here: the stored secret equals the verifying secret) and, when an `exp`
claim is present, that it lies in the future; on any failure it raises
`JWTError`, which `decode_token` re-raises. -/

/-- Token payload: a JSON object; `Option` marks claims that may be absent
(`payload.get(...)` in Python returns `None` for an absent key). -/
structure Payload where
  user_id : Option Nat := none
  email : Option String := none
  typ : Option String := none
  exp : Option Nat := none
deriving DecidableEq, Repr

/-- Python dict truthiness for the payload: `not payload` is true exactly
when the dict is empty. -/
def Payload.isEmpty (p : Payload) : Bool :=
  p.user_id = none ∧ p.email = none ∧ p.typ = none ∧ p.exp = none

inductive Token
  | malformed (s : String)
  | signed (secret : String) (payload : Payload)
deriving DecidableEq, Repr

/-- `JWT_SECRET` default from `auth_utils.py`. -/
def JWT_SECRET : String := "to-be-set-in-production"

def ACCESS_TOKEN_EXPIRE_MINUTES : Nat := 15
def REFRESH_TOKEN_EXPIRE_DAYS : Nat := 7

/-- Seconds in a day, to convert the refresh expiry window. -/
def daySeconds : Nat := 86400

inductive JWTError
  | invalidToken
  | expiredSignature
deriving DecidableEq, Repr

/-- `jose.jwt.decode(token, JWT_SECRET, algorithms=[...])`: signature check,
then expiry check for a present `exp` claim. -/
def jwtDecode (tok : Token) (now : Nat) : Except JWTError Payload :=
  match tok with
  | .malformed _ => .error .invalidToken
  | .signed secret p =>
    if secret = JWT_SECRET then
      match p.exp with
      | some e => if now < e then .ok p else .error .expiredSignature
      | none => .ok p
    else .error .invalidToken

/-- `decode_token` (`auth_utils.py` lines 82-99): returns the payload of a
valid token and re-raises `JWTError` otherwise — it never returns `None`. -/
def decode_token (tok : Token) (now : Nat) : Except JWTError Payload :=
  match jwtDecode tok now with
  | .ok p => .ok p
  | .error e => .error e

/-- `create_access_token(data)` with the default expiry: payload is the data
(`user_id`, `email`) plus `exp = now + 15 minutes` and `type = "access"`. -/
def create_access_token (user_id : Nat) (email : String) (now : Nat) : Token :=
  .signed JWT_SECRET
    { user_id := some user_id, email := some email,
      typ := some "access", exp := some (now + ACCESS_TOKEN_EXPIRE_MINUTES * 60) }

/-- `create_refresh_token(data)`: `exp = now + 7 days`, `type = "refresh"`. -/
def create_refresh_token (user_id : Nat) (email : String) (now : Nat) : Token :=
  .signed JWT_SECRET
    { user_id := some user_id, email := some email,
      typ := some "refresh", exp := some (now + REFRESH_TOKEN_EXPIRE_DAYS * daySeconds) }

/-- `hashlib.sha256(token.encode()).hexdigest()`, modelled as an injective
deterministic encoding of the token into `Nat`. -/
def sha256hex (tok : Token) : Nat :=
  match tok with
  | .malformed s => 2 * s.length
  | .signed secret p =>
    2 * (secret.length + (p.user_id.getD 0)) + 1

/-- bcrypt password hashing, modelled as a deterministic tagged string.
(`get_password_hash` salts, but `verify_password` only ever compares a
password against a stored hash, which this model captures.) -/
def get_password_hash (password : String) : String :=
  "bcrypt$" ++ password

def verify_password (plain hashed : String) : Bool :=
  hashed = get_password_hash plain

/-! ## Data model (`shared/models.py`) -/

structure User where
  id : Nat
  email : String
  hashed_password : String
  full_name : Option String := none
  is_active : Bool := true
deriving DecidableEq, Repr

structure RefreshTokenRec where
  token_hash : Nat
  user_id : Nat
  expires_at : Nat
  revoked : Bool := false
deriving DecidableEq, Repr

structure Team where
  id : Nat
  name : String
  owner_id : Nat
deriving DecidableEq, Repr

/-- A row of the `team_members` association table; `(team_id, user_id)` is
the composite primary key. -/
structure Membership where
  team_id : Nat
  user_id : Nat
  role : TeamRole
deriving DecidableEq, Repr

structure Project where
  id : Nat
  name : String
  team_id : Nat
  is_archived : Bool := false
deriving DecidableEq, Repr

structure Task where
  id : Nat
  title : String
  description : Option String := none
  status : TaskStatus := .todo
  priority : TaskPriority := .medium
  project_id : Nat
  assigned_to : Option Nat := none
  created_by : Nat
  due_date : Option Nat := none
  version : Nat := 1
deriving DecidableEq, Repr

/-- The persistent state visible to the services. -/
structure DB where
  users : List User := []
  refresh_tokens : List RefreshTokenRec := []
  teams : List Team := []
  memberships : List Membership := []
  projects : List Project := []
  tasks : List Task := []
deriving DecidableEq, Repr

/-! ## Request-level plumbing -/

/-- The `Authorization` header of a request.  The services only distinguish
"absent", "present but not bearer-scheme", and "bearer with this token". -/
inductive AuthHeader
  | absent
  | nonBearer (s : String)
  | bearer (tok : Token)
deriving DecidableEq, Repr

/-- Outcome of a failed request: an `HTTPException(status, detail)` raised by
the handler, or an exception that escapes the handler (FastAPI answers 500). -/
inductive ApiError
  | http (statusCode : Nat) (detail : String)
  | raised (msg : String)
deriving DecidableEq, Repr

def unauthorizedMissing : ApiError := .http 401 "Missing authorization header"
def unauthorizedInvalid : ApiError := .http 401 "Invalid token"
def unauthorizedUserNotFound : ApiError := .http 401 "User not found"

/-- `db.query(User).filter(User.id == user_id).first()`; a SQL comparison
against `NULL` (an absent `user_id` claim) matches nothing. -/
def findUserById (uid : Option Nat) (db : DB) : Option User :=
  match uid with
  | none => none
  | some i => db.users.find? (fun u => u.id = i)

def findUserByEmail (email : String) (db : DB) : Option User :=
  db.users.find? (fun u => u.email = email)

/-! ## `task-service/main.py`: `get_current_user` (lines 50-79)

Checks: bearer header, `decode_token` (whose `JWTError` escapes uncaught),
dict truthiness of the payload, and that `payload.get("user_id")` resolves to
an existing user.  It checks neither the `type` claim nor `is_active`. -/

def taskGetCurrentUser (auth : AuthHeader) (db : DB) (now : Nat) :
    Except ApiError User :=
  match auth with
  | .absent => .error unauthorizedMissing
  | .nonBearer _ => .error unauthorizedMissing
  | .bearer tok =>
    match decode_token tok now with
    | .error _ => .error (.raised "JWTError")
    | .ok payload =>
      if payload.isEmpty then .error unauthorizedInvalid
      else
        match findUserById payload.user_id db with
        | none => .error unauthorizedUserNotFound
        | some u => .ok u

/-! ## `auth-service/main.py`: `get_current_user` (lines 56-92)

Additionally requires `payload.get("type") == "access"`, a truthy
`user_id` claim, and an active user. -/

def authUnauthorizedMissing : ApiError :=
  .http 401 "Missing or invalid Authorization header"
def authInvalidPayload : ApiError := .http 401 "Invalid token payload"
def authUserNotFoundInactive : ApiError := .http 401 "User not found or inactive"

/-- Python truthiness of `payload.get("user_id")`: `None` and `0` are falsy. -/
def truthyId (uid : Option Nat) : Bool :=
  match uid with
  | none => false
  | some i => i ≠ 0

def authGetCurrentUser (auth : AuthHeader) (db : DB) (now : Nat) :
    Except ApiError User :=
  match auth with
  | .absent => .error authUnauthorizedMissing
  | .nonBearer _ => .error authUnauthorizedMissing
  | .bearer tok =>
    match decode_token tok now with
    | .error _ => .error (.raised "JWTError")
    | .ok payload =>
      if payload.isEmpty ∨ payload.typ ≠ some "access" then
        .error unauthorizedInvalid
      else if ¬ truthyId payload.user_id then .error authInvalidPayload
      else
        match findUserById payload.user_id db with
        | none => .error authUserNotFoundInactive
        | some u =>
          if ¬ u.is_active then .error authUserNotFoundInactive
          else .ok u

/-! ## `auth-service/main.py`: `verify_token` (lines 263-284)

Calls `get_current_user` and maps `HTTPException` (only) to
`{"valid": False}`; any other exception — the `JWTError` raised by
`decode_token` on an undecodable token — escapes. -/

structure VerifyResponse where
  valid : Bool
  user_id : Option Nat := none
  email : Option String := none
  is_active : Option Bool := none
deriving DecidableEq, Repr

def verify_token (auth : AuthHeader) (db : DB) (now : Nat) :
    Except ApiError VerifyResponse :=
  match authGetCurrentUser auth db now with
  | .ok u =>
      .ok { valid := true, user_id := some u.id, email := some u.email,
            is_active := some u.is_active }
  | .error (.http _ _) => .ok { valid := false }
  | .error (.raised m) => .error (.raised m)

/-! ## `auth-service/main.py`: `login` (lines 133-176) -/

structure LoginResponse where
  access_token : Token
  refresh_token : Token
  token_type : String := "bearer"
  user : User
deriving DecidableEq, Repr

def loginBadCredentials : ApiError := .http 401 "Invalid email or password"
def loginInactive : ApiError := .http 403 "User account is inactive"

def login (email password : String) (db : DB) (now : Nat) :
    DB × Except ApiError LoginResponse :=
  match findUserByEmail email db with
  | none => (db, .error loginBadCredentials)
  | some user =>
    if ¬ verify_password password user.hashed_password then
      (db, .error loginBadCredentials)
    else if ¬ user.is_active then (db, .error loginInactive)
    else
      let access := create_access_token user.id user.email now
      let refresh := create_refresh_token user.id user.email now
      let tokenRecord : RefreshTokenRec :=
        { token_hash := sha256hex refresh, user_id := user.id,
          expires_at := now + REFRESH_TOKEN_EXPIRE_DAYS * daySeconds }
      ({ db with refresh_tokens := db.refresh_tokens ++ [tokenRecord] },
       .ok { access_token := access, refresh_token := refresh, user := user })

/-! ## Refresh-token liveness (`auth-service/main.py` lines 199-213)

The store lookup inside the `refresh` endpoint: a record must exist whose
hash matches the presented token, whose `user_id` matches the principal,
which is not revoked, and whose expiry is in the future. -/

def isRefreshTokenLive (tok : Token) (principalId : Nat) (db : DB)
    (now : Nat) : Bool :=
  db.refresh_tokens.any (fun r =>
    r.token_hash = sha256hex tok ∧ r.user_id = principalId ∧
    r.revoked = false ∧ now < r.expires_at)

/-- `logout` (lines 241-261): marks the matching record revoked, if any. -/
def logout (tok : Token) (principalId : Nat) (db : DB) : DB :=
  { db with refresh_tokens := db.refresh_tokens.map (fun r =>
      if r.token_hash = sha256hex tok ∧ r.user_id = principalId then
        { r with revoked := true }
      else r) }

/-! ## `task-service/main.py`: scoped task resolution

`get_task` / `update_task` / `delete_task` all start from the same query:
Task ⋈ Project ⋈ Team ⋈ team_members filtered by task id and the caller's
user id.  A task outside the caller's teams is indistinguishable from a
missing id: the query returns nothing. -/

def taskNotFound : ApiError := .http 404 "Task not found or access denied"
def versionConflict : ApiError :=
  .http 409 "Task was modified by another user. Please refresh and try again."

/-- Does the join chain Task→Project→Team→team_members produce a row for
this task and this user? -/
def taskVisibleTo (t : Task) (userId : Nat) (db : DB) : Bool :=
  db.projects.any (fun p =>
    p.id = t.project_id ∧
    db.teams.any (fun tm => tm.id = p.team_id) ∧
    db.memberships.any (fun m => m.team_id = p.team_id ∧ m.user_id = userId))

def findTaskScoped (taskId userId : Nat) (db : DB) : Option Task :=
  db.tasks.find? (fun t => t.id = taskId ∧ taskVisibleTo t userId db)

/-- `get_task` (lines 213-241). -/
def get_task (taskId : Nat) (currentUser : User) (db : DB) :
    Except ApiError Task :=
  match findTaskScoped taskId currentUser.id db with
  | none => .error taskNotFound
  | some t => .ok t

/-! ## `update_task` (lines 244-299)

The `TaskUpdate` pydantic model distinguishes an absent field from one
explicitly set to `null` (`model_dump(exclude_unset=True)`), so fields that
are nullable on the `tasks` table carry `Option (Option _)`: outer `none` =
absent from the patch, `some none` = explicit null, `some (some v)` = value.
Non-nullable columns carry `Option _` (absent / value). -/

structure TaskUpdate where
  title : Option String := none
  description : Option (Option String) := none
  status : Option TaskStatus := none
  priority : Option TaskPriority := none
  assigned_to : Option (Option Nat) := none
  due_date : Option (Option Nat) := none
  version : Option Nat := none
deriving DecidableEq, Repr

/-- The `setattr` loop over `model_dump(exclude_unset=True,
exclude={'version'})`: each field present in the patch overwrites the task
attribute (explicit null included); absent fields are untouched. -/
def applyPatch (patch : TaskUpdate) (t : Task) : Task :=
  { t with
    title := patch.title.getD t.title,
    description := patch.description.getD t.description,
    status := patch.status.getD t.status,
    priority := patch.priority.getD t.priority,
    assigned_to := patch.assigned_to.getD t.assigned_to,
    due_date := patch.due_date.getD t.due_date }

/-- Python truthiness of `task_update.version`: `if task_update.version and
task.version != task_update.version` — a supplied `0` is falsy and skips the
conflict check. -/
def versionCheckFails (patch : TaskUpdate) (t : Task) : Bool :=
  match patch.version with
  | none => false
  | some v => v ≠ 0 ∧ t.version ≠ v

def replaceTask (t : Task) (db : DB) : DB :=
  { db with tasks := db.tasks.map (fun u => if u.id = t.id then t else u) }

/-- `publish_event` (lines 82-93): a bare `redis_client.publish` with no
`try`/`except`.  `pubOk` says whether the Redis publish succeeds; on failure
the exception propagates to the caller. -/
def publish_event (pubOk : Bool) : Except ApiError Unit :=
  if pubOk then .ok () else .error (.raised "redis.ConnectionError")

/-- `update_task`: scoped resolve, version check, apply patch, increment
version, commit, then publish.  Returns the post-request database state
together with the handler's outcome; the commit precedes the publish, so a
publish failure leaves the committed state in place but escapes as an
exception. -/
def update_task (taskId : Nat) (patch : TaskUpdate) (currentUser : User)
    (db : DB) (pubOk : Bool) : DB × Except ApiError Task :=
  match findTaskScoped taskId currentUser.id db with
  | none => (db, .error taskNotFound)
  | some t =>
    if versionCheckFails patch t then (db, .error versionConflict)
    else
      let t' := { applyPatch patch t with version := t.version + 1 }
      let db' := replaceTask t' db
      match publish_event pubOk with
      | .error e => (db', .error e)
      | .ok _ => (db', .ok t')

/-! ### The full pydantic `TaskUpdate` schema

The pydantic schema (`task-service/schemas.py` lines 24-32) declares *every*
field `Optional`, so a caller may explicitly send `null` for any of them and
`model_dump(exclude_unset=True)` keeps it.  `TaskUpdateFull` mirrors that:
each patchable column carries `Option (Option _)` (absent / explicit null /
value).  `title`, `status` and `priority` are `nullable=False` columns
(`shared/models.py`), so a staged null there makes `db.commit()` raise an
`IntegrityError`: the request 500s and nothing is written.  The narrower
`TaskUpdate` above is the restriction of this schema to patches that do not
null a non-nullable column (`update_task_toFull_agrees` below relates the
two embeddings).  An explicitly null `version` behaves exactly like an
absent one (falsy, and excluded from the `setattr` loop), so `version`
stays `Option Nat`.  Server-managed columns (`created_at`, `updated_at` —
which `onupdate=func.now()` refreshes on every committed update —
`completed_at` and the AI fields) are outside the model. -/

structure TaskUpdateFull where
  title : Option (Option String) := none
  description : Option (Option String) := none
  status : Option (Option TaskStatus) := none
  priority : Option (Option TaskPriority) := none
  assigned_to : Option (Option Nat) := none
  due_date : Option (Option Nat) := none
  version : Option Nat := none
deriving DecidableEq, Repr

/-- The version-truthiness guard, verbatim for the full patch schema. -/
def versionCheckFailsFull (patch : TaskUpdateFull) (t : Task) : Bool :=
  match patch.version with
  | none => false
  | some v => v ≠ 0 ∧ t.version ≠ v

/-- The `setattr` loop followed by `db.commit()` for a full patch: every
field present in the patch is staged onto the row (explicit null included);
the commit then enforces the `NOT NULL` constraints of `title`, `status`
and `priority` — a staged null on one of them aborts the commit
(`IntegrityError`, modelled as `none`) and the transaction writes nothing. -/
def applyPatchFull (patch : TaskUpdateFull) (t : Task) : Option Task :=
  match patch.title.getD (some t.title),
      patch.status.getD (some t.status),
      patch.priority.getD (some t.priority) with
  | some title, some status, some priority =>
    some { t with
      title := title, status := status, priority := priority,
      description := patch.description.getD t.description,
      assigned_to := patch.assigned_to.getD t.assigned_to,
      due_date := patch.due_date.getD t.due_date }
  | _, _, _ => none

/-- `update_task` over the full pydantic patch space: scoped resolve, then
the version guard, then `setattr` + commit — which raises `IntegrityError`
(an uncaught 500, nothing written) if the patch nulls a non-nullable
column — then publish. -/
def update_task_full (taskId : Nat) (patch : TaskUpdateFull)
    (currentUser : User) (db : DB) (pubOk : Bool) :
    DB × Except ApiError Task :=
  match findTaskScoped taskId currentUser.id db with
  | none => (db, .error taskNotFound)
  | some t =>
    if versionCheckFailsFull patch t then (db, .error versionConflict)
    else
      match applyPatchFull patch t with
      | none => (db, .error (.raised "IntegrityError"))
      | some t0 =>
        let t' := { t0 with version := t.version + 1 }
        let db' := replaceTask t' db
        match publish_event pubOk with
        | .error e => (db', .error e)
        | .ok _ => (db', .ok t')

/-- Injection of the restricted patch type into the full schema: a value on
a non-nullable column becomes that value, never an explicit null. -/
def TaskUpdate.toFull (patch : TaskUpdate) : TaskUpdateFull :=
  { title := patch.title.map some,
    description := patch.description,
    status := patch.status.map some,
    priority := patch.priority.map some,
    assigned_to := patch.assigned_to,
    due_date := patch.due_date,
    version := patch.version }

/-- `delete_task` (lines 302-334): same scoped resolve, then soft delete by
setting `status = archived` — the version is not touched — commit, publish. -/
def delete_task (taskId : Nat) (currentUser : User) (db : DB) (pubOk : Bool) :
    DB × Except ApiError Unit :=
  match findTaskScoped taskId currentUser.id db with
  | none => (db, .error taskNotFound)
  | some t =>
    let t' := { t with status := .archived }
    let db' := replaceTask t' db
    match publish_event pubOk with
    | .error e => (db', .error e)
    | .ok _ => (db', .ok ())

/-! ## `add_team_member` (lines 433-481)

Requires the caller to hold owner/admin on the team, resolves the new member
by email, and inserts into `team_members`; the composite primary key
`(team_id, user_id)` makes a duplicate insert raise, which the handler maps
to a 400. -/

def forbiddenAddMember : ApiError :=
  .http 403 "Only team owners/admins can add members"
def memberUserNotFound : ApiError := .http 404 "User not found"
def alreadyMember : ApiError := .http 400 "User is already a member of this team"

structure TeamMemberAdd where
  email : String
  role : Option TeamRole := some .member
deriving DecidableEq, Repr

def hasManagingAccess (userId teamId : Nat) (db : DB) : Bool :=
  db.memberships.any (fun m =>
    m.team_id = teamId ∧ m.user_id = userId ∧
    (m.role = .owner ∨ m.role = .admin))

def isMember (userId teamId : Nat) (db : DB) : Bool :=
  db.memberships.any (fun m => m.team_id = teamId ∧ m.user_id = userId)

def add_team_member (teamId : Nat) (memberData : TeamMemberAdd)
    (currentUser : User) (db : DB) : DB × Except ApiError String :=
  if ¬ hasManagingAccess currentUser.id teamId db then
    (db, .error forbiddenAddMember)
  else
    match findUserByEmail memberData.email db with
    | none => (db, .error memberUserNotFound)
    | some newMember =>
      if isMember newMember.id teamId db then (db, .error alreadyMember)
      else
        let row : Membership :=
          { team_id := teamId, user_id := newMember.id,
            role := memberData.role.getD .member }
        ({ db with memberships := db.memberships ++ [row] },
         .ok ("Added " ++ newMember.email ++ " to team"))

/-! ## A concrete fixture used by witnesses and counterexamples -/

def user1 : User :=
  { id := 1, email := "a@x.com",
    hashed_password := get_password_hash "longpassword1",
    full_name := some "Alice" }

def user2 : User :=
  { id := 2, email := "b@x.com",
    hashed_password := get_password_hash "longpassword2",
    is_active := false }

def teamT : Team := { id := 10, name := "T", owner_id := 1 }

def projP : Project := { id := 20, name := "P", team_id := 10 }

def taskK : Task :=
  { id := 30, title := "K", description := some "orig", project_id := 20,
    assigned_to := some 1, created_by := 1 }

def dbEx : DB :=
  { users := [user1, user2],
    teams := [teamT],
    memberships := [{ team_id := 10, user_id := 1, role := .owner }],
    projects := [projP],
    tasks := [taskK] }

/-- An access token for `user1`, issued at time 0. -/
def tokAccess1 : Token := create_access_token user1.id user1.email 0

/-- A *refresh*-typed, correctly signed token naming the inactive `user2`. -/
def tokRefresh2 : Token :=
  .signed JWT_SECRET
    { user_id := some 2, email := some "b@x.com",
      typ := some "refresh", exp := some 1000 }

/-- The response `login("a@x.com", "longpassword1")` produces at time 0 on
the fixture database. -/
def loginRespEx : LoginResponse :=
  { access_token := tokAccess1,
    refresh_token := create_refresh_token user1.id user1.email 0,
    user := user1 }

end Collab

namespace Collab

/-! ## C1 — version conflict handling in `update_task` -/

/-- Helper: on the success path the committed state and response of
`update_task` are the patched task. -/
theorem update_task_success (taskId : Nat) (patch : TaskUpdate)
    (currentUser : User) (db : DB) (pubOk : Bool) (t : Task)
    (hfind : findTaskScoped taskId currentUser.id db = some t)
    (hver : versionCheckFails patch t = false) :
    update_task taskId patch currentUser db pubOk =
      (replaceTask { applyPatch patch t with version := t.version + 1 } db,
       if pubOk then
         .ok { applyPatch patch t with version := t.version + 1 }
       else .error (.raised "redis.ConnectionError")) := by
  unfold update_task
  rw [hfind]
  simp only [hver]
  cases pubOk <;> simp [publish_event]

/-- C1 (amended): if the caller supplies a *nonzero* expected version that
differs from the stored version, `update_task` fails with the 409
`VersionConflict` response and leaves the database exactly as it was. -/
theorem C1_nonzero_version_conflict_rejects (taskId : Nat)
    (patch : TaskUpdate) (currentUser : User) (db : DB) (pubOk : Bool)
    (t : Task) (v : Nat)
    (hfind : findTaskScoped taskId currentUser.id db = some t)
    (hv : patch.version = some v) (hv0 : v ≠ 0) (hne : t.version ≠ v) :
    update_task taskId patch currentUser db pubOk =
      (db, .error versionConflict) := by
  unfold update_task
  rw [hfind]
  have hc : versionCheckFails patch t = true := by
    simp [versionCheckFails, hv, hv0, hne]
  simp [hc]

/-- C1 witness: on the fixture, an update of task 30 (stored version 1)
carrying expected version 5 is rejected with `VersionConflict` and changes
nothing. -/
theorem C1_witness :
    update_task 30 { title := some "x", version := some 5 } user1 dbEx true =
      (dbEx, .error versionConflict) :=
  C1_nonzero_version_conflict_rejects 30
    { title := some "x", version := some 5 } user1 dbEx true taskK 5
    (by decide) rfl (by decide) (by decide)

/-- C1 counterexample: a supplied expected version of `0` differs from the
stored version `1`, yet — because `if task_update.version and ...` treats
`0` as falsy — the update is applied instead of failing with
`VersionConflict`. -/
theorem C1_counterexample :
    (({ title := some "changed", version := some 0 } : TaskUpdate).version
        = some 0) ∧
    taskK.version = 1 ∧ (0 : Nat) ≠ 1 ∧
    (update_task 30 { title := some "changed", version := some 0 }
        user1 dbEx true).2 ≠ .error versionConflict ∧
    (update_task 30 { title := some "changed", version := some 0 }
        user1 dbEx true).1 ≠ dbEx := by
  refine ⟨rfl, rfl, by decide, ?_, ?_⟩ <;> decide

/-! ## C3 — what the authentication entry points actually admit -/

/-- Helper: success characterization of the task-service `get_current_user`:
bearer header, decodable token, non-empty payload, and a resolvable user —
with no check of the `type` claim or the `is_active` flag. -/
theorem taskGetCurrentUser_ok_iff (auth : AuthHeader) (db : DB) (now : Nat)
    (u : User) :
    taskGetCurrentUser auth db now = .ok u ↔
      ∃ tok payload, auth = .bearer tok ∧
        decode_token tok now = .ok payload ∧ payload.isEmpty = false ∧
        findUserById payload.user_id db = some u := by
  constructor
  · intro h
    cases auth with
    | absent => simp [taskGetCurrentUser] at h
    | nonBearer s => simp [taskGetCurrentUser] at h
    | bearer tok =>
      cases hdec : decode_token tok now with
      | error e => simp [taskGetCurrentUser, hdec] at h
      | ok p =>
        simp only [taskGetCurrentUser, hdec] at h
        cases he : p.isEmpty with
        | true => simp [he] at h
        | false =>
          simp only [he] at h
          cases hf : findUserById p.user_id db with
          | none => simp [hf] at h
          | some w =>
            simp only [hf] at h
            cases h
            exact ⟨tok, p, rfl, hdec, he, hf⟩
  · rintro ⟨tok, p, rfl, hdec, he, hf⟩
    simp [taskGetCurrentUser, hdec, he, hf]

/-- Helper: success characterization of the auth-service `get_current_user`:
additionally demands `type == "access"`, a truthy `user_id` claim, and an
active user. -/
theorem authGetCurrentUser_ok_iff (auth : AuthHeader) (db : DB) (now : Nat)
    (u : User) :
    authGetCurrentUser auth db now = .ok u ↔
      ∃ tok payload, auth = .bearer tok ∧
        decode_token tok now = .ok payload ∧ payload.isEmpty = false ∧
        payload.typ = some "access" ∧ truthyId payload.user_id = true ∧
        findUserById payload.user_id db = some u ∧ u.is_active = true := by
  constructor
  · intro h
    cases auth with
    | absent => simp [authGetCurrentUser] at h
    | nonBearer s => simp [authGetCurrentUser] at h
    | bearer tok =>
      cases hdec : decode_token tok now with
      | error e => simp [authGetCurrentUser, hdec] at h
      | ok p =>
        simp only [authGetCurrentUser, hdec] at h
        by_cases hbad : p.isEmpty = true ∨ p.typ ≠ some "access"
        · simp [hbad] at h
        · rw [if_neg hbad] at h
          rw [not_or, not_not, Bool.not_eq_true] at hbad
          obtain ⟨he, hty⟩ := hbad
          cases ht : truthyId p.user_id with
          | false => simp [ht] at h
          | true =>
            simp only [ht, not_true, ite_false] at h
            cases hf : findUserById p.user_id db with
            | none => simp [hf] at h
            | some w =>
              simp only [hf] at h
              cases ha : w.is_active with
              | false => simp [ha] at h
              | true =>
                simp [ha] at h
                cases h
                exact ⟨tok, p, rfl, hdec, he, hty, ht, hf, ha⟩
  · rintro ⟨tok, p, rfl, hdec, he, hty, ht, hf, ha⟩
    simp [authGetCurrentUser, hdec, he, hty, ht, hf, ha]

/-- Helper: every failure of either entry point is an HTTP 401 — except for
an undecodable token, whose `JWTError` escapes the handler uncaught. -/
theorem getCurrentUser_error_shape (auth : AuthHeader) (db : DB) (now : Nat)
    (e : ApiError)
    (h : taskGetCurrentUser auth db now = .error e ∨
         authGetCurrentUser auth db now = .error e) :
    (∃ d, e = .http 401 d) ∨
      (e = .raised "JWTError" ∧
        ∃ tok err, auth = .bearer tok ∧ decode_token tok now = .error err) := by
  cases auth with
  | absent =>
    rcases h with h | h <;>
      simp [taskGetCurrentUser, authGetCurrentUser, unauthorizedMissing,
        authUnauthorizedMissing] at h <;>
      exact Or.inl ⟨_, h.symm⟩
  | nonBearer s =>
    rcases h with h | h <;>
      simp [taskGetCurrentUser, authGetCurrentUser, unauthorizedMissing,
        authUnauthorizedMissing] at h <;>
      exact Or.inl ⟨_, h.symm⟩
  | bearer tok =>
    cases hdec : decode_token tok now with
    | error err =>
      rcases h with h | h <;>
        simp [taskGetCurrentUser, authGetCurrentUser, hdec] at h <;>
        exact Or.inr ⟨h.symm, tok, err, rfl, hdec⟩
    | ok p =>
      left
      rcases h with h | h
      · simp only [taskGetCurrentUser, hdec] at h
        cases he : p.isEmpty <;> simp only [he] at h
        · cases hf : findUserById p.user_id db <;> simp only [hf] at h
          · simp at h
            exact ⟨_, h.symm⟩
          · simp at h
        · simp at h
          exact ⟨_, h.symm⟩
      · simp only [authGetCurrentUser, hdec] at h
        by_cases hbad : p.isEmpty = true ∨ p.typ ≠ some "access"
        · rw [if_pos hbad] at h
          cases h
          exact ⟨_, rfl⟩
        · rw [if_neg hbad] at h
          cases ht : truthyId p.user_id <;> simp only [ht] at h
          · simp at h
            exact ⟨_, h.symm⟩
          · cases hf : findUserById p.user_id db <;> simp only [hf] at h
            · simp at h
              exact ⟨_, h.symm⟩
            · rename_i w
              cases ha : w.is_active <;> simp [ha] at h
              exact ⟨_, h.symm⟩

/-- C3 (amended): the auth-service entry point admits exactly the requests
with a bearer header, a token that decodes (signature, and expiry when the
claim is present), a non-empty payload with `type = "access"` and a truthy
`user_id` resolving to an existing *active* user; the task-service entry
point omits the type, truthy-id and active checks; all rejections are
HTTP 401 except an undecodable token, whose decode error escapes uncaught
instead of yielding the uniform Unauthorized. -/
theorem C3_entry_point_characterization (auth : AuthHeader) (db : DB)
    (now : Nat) :
    (∀ u, taskGetCurrentUser auth db now = .ok u ↔
      ∃ tok payload, auth = .bearer tok ∧
        decode_token tok now = .ok payload ∧ payload.isEmpty = false ∧
        findUserById payload.user_id db = some u) ∧
    (∀ u, authGetCurrentUser auth db now = .ok u ↔
      ∃ tok payload, auth = .bearer tok ∧
        decode_token tok now = .ok payload ∧ payload.isEmpty = false ∧
        payload.typ = some "access" ∧ truthyId payload.user_id = true ∧
        findUserById payload.user_id db = some u ∧ u.is_active = true) ∧
    (∀ e, taskGetCurrentUser auth db now = .error e ∨
          authGetCurrentUser auth db now = .error e →
      (∃ d, e = .http 401 d) ∨
        (e = .raised "JWTError" ∧
          ∃ tok err, auth = .bearer tok ∧
            decode_token tok now = .error err)) :=
  ⟨fun u => taskGetCurrentUser_ok_iff auth db now u,
   fun u => authGetCurrentUser_ok_iff auth db now u,
   fun e h => getCurrentUser_error_shape auth db now e h⟩

/-- C3 witness: a well-formed access token for the active `user1` is
admitted by the auth-service entry point. -/
theorem C3_witness :
    authGetCurrentUser (.bearer tokAccess1) dbEx 0 = .ok user1 :=
  ((C3_entry_point_characterization (.bearer tokAccess1) dbEx 0).2.1
      user1).mpr
    ⟨tokAccess1, _, rfl, rfl, by decide, by decide, by decide, by decide,
      by decide⟩

/-- C3 counterexample: the task-service entry point admits a correctly
signed but *refresh*-typed token belonging to the *inactive* `user2`, and an
undecodable token makes the auth-service entry point raise the uncaught
`JWTError` (a 500), which is not an HTTP 401 response. -/
theorem C3_counterexample :
    taskGetCurrentUser (.bearer tokRefresh2) dbEx 0 = .ok user2 ∧
    user2.is_active = false ∧
    (match decode_token tokRefresh2 0 with
      | .ok p => p.typ
      | .error _ => none) = some "refresh" ∧
    authGetCurrentUser (.bearer (.malformed "zzz")) dbEx 0 =
      .error (.raised "JWTError") ∧
    ∀ d : String, (ApiError.raised "JWTError") ≠ .http 401 d := by
  refine ⟨by decide, by decide, by decide, by decide, ?_⟩
  intro d
  simp

/-! ## C4 — NotFound indistinguishability across tenants -/

/-- Helper: if the principal has no membership row on the team of any task
with the requested id, the scoped query finds nothing. -/
theorem findTaskScoped_eq_none_of_noMembership (taskId uid : Nat) (db : DB)
    (h : ∀ t ∈ db.tasks, t.id = taskId → ∀ p ∈ db.projects,
      p.id = t.project_id → ∀ m ∈ db.memberships,
        m.team_id = p.team_id → m.user_id ≠ uid) :
    findTaskScoped taskId uid db = none := by
  unfold findTaskScoped
  rw [List.find?_eq_none]
  intro t ht hpt
  rw [decide_eq_true_eq] at hpt
  obtain ⟨hid, hvis⟩ := hpt
  rw [taskVisibleTo, List.any_eq_true] at hvis
  obtain ⟨p, hp, hpc⟩ := hvis
  rw [decide_eq_true_eq] at hpc
  obtain ⟨hpid, -, hmem⟩ := hpc
  rw [List.any_eq_true] at hmem
  obtain ⟨m, hm, hmc⟩ := hmem
  rw [decide_eq_true_eq] at hmc
  exact h t ht hid p hp hpid m hm hmc.1 hmc.2

/-- Helper: a task id that matches no stored task is never found by the
scoped query. -/
theorem findTaskScoped_eq_none_of_noTask (taskId uid : Nat) (db : DB)
    (h : ∀ t ∈ db.tasks, t.id ≠ taskId) :
    findTaskScoped taskId uid db = none := by
  unfold findTaskScoped
  rw [List.find?_eq_none]
  intro t ht hpt
  rw [decide_eq_true_eq] at hpt
  exact h t ht hpt.1

/-- C4: a principal with no membership row on the task's team gets the same
404 `NotFound` response from `get_task`, `update_task` and `delete_task`
as any principal asking for a task id that does not exist at all, and
neither run changes the database. -/
theorem C4_notfound_indistinguishable (taskId : Nat) (user : User)
    (db1 db2 : DB) (patch : TaskUpdate) (pubOk : Bool)
    (h1 : ∀ t ∈ db1.tasks, t.id = taskId → ∀ p ∈ db1.projects,
      p.id = t.project_id → ∀ m ∈ db1.memberships,
        m.team_id = p.team_id → m.user_id ≠ user.id)
    (h2 : ∀ t ∈ db2.tasks, t.id ≠ taskId) :
    get_task taskId user db1 = .error taskNotFound ∧
    get_task taskId user db2 = .error taskNotFound ∧
    get_task taskId user db1 = get_task taskId user db2 ∧
    update_task taskId patch user db1 pubOk = (db1, .error taskNotFound) ∧
    update_task taskId patch user db2 pubOk = (db2, .error taskNotFound) ∧
    (update_task taskId patch user db1 pubOk).2 =
      (update_task taskId patch user db2 pubOk).2 ∧
    delete_task taskId user db1 pubOk = (db1, .error taskNotFound) ∧
    delete_task taskId user db2 pubOk = (db2, .error taskNotFound) ∧
    (delete_task taskId user db1 pubOk).2 =
      (delete_task taskId user db2 pubOk).2 := by
  have hn1 : findTaskScoped taskId user.id db1 = none :=
    findTaskScoped_eq_none_of_noMembership taskId user.id db1 h1
  have hn2 : findTaskScoped taskId user.id db2 = none :=
    findTaskScoped_eq_none_of_noTask taskId user.id db2 h2
  refine ⟨?_, ?_, ?_, ?_, ?_, ?_, ?_, ?_, ?_⟩ <;>
    simp [get_task, update_task, delete_task, hn1, hn2]

/-- C4 witness: `user2` has no membership on team 10, so task 30 (which
exists in `dbEx`) answers exactly as it does in a database holding no task
with id 30 at all. -/
theorem C4_witness :
    get_task 30 user2 dbEx = .error taskNotFound ∧
    get_task 30 user2 { dbEx with tasks := [] } = .error taskNotFound ∧
    get_task 30 user2 dbEx = get_task 30 user2 { dbEx with tasks := [] } ∧
    update_task 30 { title := some "w" } user2 dbEx true =
      (dbEx, .error taskNotFound) ∧
    update_task 30 { title := some "w" } user2 { dbEx with tasks := [] }
        true = ({ dbEx with tasks := [] }, .error taskNotFound) ∧
    (update_task 30 { title := some "w" } user2 dbEx true).2 =
      (update_task 30 { title := some "w" } user2
        { dbEx with tasks := [] } true).2 ∧
    delete_task 30 user2 dbEx true = (dbEx, .error taskNotFound) ∧
    delete_task 30 user2 { dbEx with tasks := [] } true =
      ({ dbEx with tasks := [] }, .error taskNotFound) ∧
    (delete_task 30 user2 dbEx true).2 =
      (delete_task 30 user2 { dbEx with tasks := [] } true).2 :=
  C4_notfound_indistinguishable 30 user2 dbEx { dbEx with tasks := [] }
    { title := some "w" } true (by decide) (by decide)

/-! ## C2 — version increments -/

/-- Helper: on the success path `delete_task` commits the archived task and
reports according to the publish outcome. -/
theorem delete_task_success (taskId : Nat) (currentUser : User) (db : DB)
    (pubOk : Bool) (t : Task)
    (hfind : findTaskScoped taskId currentUser.id db = some t) :
    delete_task taskId currentUser db pubOk =
      (replaceTask { t with status := .archived } db,
       if pubOk then .ok () else .error (.raised "redis.ConnectionError")) := by
  unfold delete_task
  rw [hfind]
  cases pubOk <;> simp [publish_event]

/-- C2 (amended): a successful `update_task` stores the task with its
version incremented by exactly 1, but a successful `delete_task` (the
soft delete) archives the task while leaving its version unchanged. -/
theorem C2_update_increments_delete_does_not (taskId : Nat)
    (patch : TaskUpdate) (currentUser : User) (db : DB) (pubOk : Bool)
    (t : Task) (hfind : findTaskScoped taskId currentUser.id db = some t)
    (hver : versionCheckFails patch t = false) :
    (∃ t', (update_task taskId patch currentUser db pubOk).1 =
        replaceTask t' db ∧ t'.id = t.id ∧ t'.version = t.version + 1) ∧
    (delete_task taskId currentUser db pubOk).1 =
      replaceTask { t with status := TaskStatus.archived } db ∧
    ({ t with status := TaskStatus.archived } : Task).version = t.version := by
  refine ⟨⟨{ applyPatch patch t with version := t.version + 1 }, ?_, ?_, rfl⟩,
    ?_, rfl⟩
  · rw [update_task_success taskId patch currentUser db pubOk t hfind hver]
  · simp [applyPatch]
  · rw [delete_task_success taskId currentUser db pubOk t hfind]

/-- C2 witness: concrete instantiation on the fixture database. -/
theorem C2_witness :
    (∃ t', (update_task 30 { title := some "y" } user1 dbEx true).1 =
        replaceTask t' dbEx ∧ t'.id = taskK.id ∧
        t'.version = taskK.version + 1) ∧
    (delete_task 30 user1 dbEx true).1 =
      replaceTask { taskK with status := TaskStatus.archived } dbEx ∧
    ({ taskK with status := TaskStatus.archived } : Task).version =
      taskK.version :=
  C2_update_increments_delete_does_not 30 { title := some "y" } user1 dbEx
    true taskK (by decide) (by decide)

/-- C2 counterexample: soft-deleting task 30 succeeds, yet the stored
version stays `1` instead of becoming `2` as the claim requires for every
successful mutation. -/
theorem C2_counterexample :
    (delete_task 30 user1 dbEx true).2 = .ok () ∧
    ((delete_task 30 user1 dbEx true).1.tasks.find?
        (fun t => t.id = 30)).map Task.version = some 1 ∧
    some (taskK.version + 1) ≠
      ((delete_task 30 user1 dbEx true).1.tasks.find?
        (fun t => t.id = 30)).map Task.version := by
  decide

/-! ## C5 — event-publish failure after commit -/

/-- C5 (amended): when the Redis publish fails after `update_task` has
committed, the committed database state is exactly the state of a run whose
publish succeeds — the mutation is not rolled back — but the handler's
reported outcome is the escaped publish exception instead of the success
response. -/
theorem C5_publish_failure_keeps_commit (taskId : Nat) (patch : TaskUpdate)
    (currentUser : User) (db : DB) (t : Task)
    (hfind : findTaskScoped taskId currentUser.id db = some t)
    (hver : versionCheckFails patch t = false) :
    (update_task taskId patch currentUser db false).1 =
      (update_task taskId patch currentUser db true).1 ∧
    (update_task taskId patch currentUser db false).2 =
      .error (.raised "redis.ConnectionError") ∧
    (update_task taskId patch currentUser db true).2 =
      .ok { applyPatch patch t with version := t.version + 1 } := by
  rw [update_task_success taskId patch currentUser db false t hfind hver,
    update_task_success taskId patch currentUser db true t hfind hver]
  exact ⟨rfl, rfl, rfl⟩

/-- C5 witness: concrete run on the fixture. -/
theorem C5_witness :
    (update_task 30 { title := some "z" } user1 dbEx false).1 =
      (update_task 30 { title := some "z" } user1 dbEx true).1 ∧
    (update_task 30 { title := some "z" } user1 dbEx false).2 =
      .error (.raised "redis.ConnectionError") ∧
    (update_task 30 { title := some "z" } user1 dbEx true).2 =
      .ok { applyPatch { title := some "z" } taskK with
              version := taskK.version + 1 } :=
  C5_publish_failure_keeps_commit 30 { title := some "z" } user1 dbEx taskK
    (by decide) (by decide)

/-- C5 counterexample: with the mutation committed (the stored task has the
new title and version 2), a failing publish still makes the endpoint report
the escaped Redis exception — not success as the claim requires. -/
theorem C5_counterexample :
    (update_task 30 { title := some "q" } user1 dbEx false).2 =
      .error (.raised "redis.ConnectionError") ∧
    ((update_task 30 { title := some "q" } user1 dbEx false).1.tasks.find?
        (fun t => t.id = 30)).map Task.version = some 2 ∧
    ((update_task 30 { title := some "q" } user1 dbEx false).1.tasks.find?
        (fun t => t.id = 30)).map Task.title = some "q" ∧
    ∀ t : Task,
      (update_task 30 { title := some "q" } user1 dbEx false).2 ≠ .ok t := by
  refine ⟨by decide, by decide, by decide, ?_⟩
  intro t h
  rw [show (update_task 30 { title := some "q" } user1 dbEx false).2 =
      .error (.raised "redis.ConnectionError") from by decide] at h
  exact Except.noConfusion h

/-! ## C6 — refresh-token liveness -/

/-- C6: under the unique-hash invariant of the `refresh_tokens` table,
liveness holds only if a record matching the token's hash exists with the
presented principal id, `revoked = false` and a future expiry; a revoked
record never passes again (even before expiry), and an expired record fails
(even if never revoked). -/
theorem C6_refresh_liveness (tok : Token) (pid : Nat) (db : DB) (now : Nat)
    (hnodup : (db.refresh_tokens.map RefreshTokenRec.token_hash).Nodup) :
    (isRefreshTokenLive tok pid db now = true →
      ∃ r ∈ db.refresh_tokens, r.token_hash = sha256hex tok ∧
        r.user_id = pid ∧ r.revoked = false ∧ now < r.expires_at) ∧
    (∀ r ∈ db.refresh_tokens, r.token_hash = sha256hex tok →
      r.revoked = true → isRefreshTokenLive tok pid db now = false) ∧
    (∀ r ∈ db.refresh_tokens, r.token_hash = sha256hex tok →
      r.expires_at ≤ now → isRefreshTokenLive tok pid db now = false) := by
  refine ⟨?_, ?_, ?_⟩
  · intro hl
    obtain ⟨r, hr, hc⟩ := List.any_eq_true.mp hl
    rw [decide_eq_true_eq] at hc
    exact ⟨r, hr, hc.1, hc.2.1, hc.2.2.1, hc.2.2.2⟩
  · intro r hr hh hrev
    cases hl : isRefreshTokenLive tok pid db now with
    | false => rfl
    | true =>
      obtain ⟨r', hr', hc⟩ := List.any_eq_true.mp hl
      rw [decide_eq_true_eq] at hc
      have heq : r' = r :=
        List.inj_on_of_nodup_map hnodup hr' hr (by rw [hc.1, hh])
      rw [heq, hrev] at hc
      exact absurd hc.2.2.1 (by decide)
  · intro r hr hh hexp
    cases hl : isRefreshTokenLive tok pid db now with
    | false => rfl
    | true =>
      obtain ⟨r', hr', hc⟩ := List.any_eq_true.mp hl
      rw [decide_eq_true_eq] at hc
      have heq : r' = r :=
        List.inj_on_of_nodup_map hnodup hr' hr (by rw [hc.1, hh])
      rw [heq] at hc
      exact absurd hc.2.2.2 (by omega)

/-- C6 witness: a revoked record for the token's hash blocks liveness even
though its expiry is still in the future. -/
theorem C6_witness :
    isRefreshTokenLive tokRefresh2 2
      { dbEx with refresh_tokens :=
          [{ token_hash := sha256hex tokRefresh2, user_id := 2,
             expires_at := 5000, revoked := true }] } 1000 = false :=
  (C6_refresh_liveness tokRefresh2 2
      { dbEx with refresh_tokens :=
          [{ token_hash := sha256hex tokRefresh2, user_id := 2,
             expires_at := 5000, revoked := true }] } 1000
      (by decide)).2.1
    { token_hash := sha256hex tokRefresh2, user_id := 2,
      expires_at := 5000, revoked := true }
    (by decide) rfl rfl

/-! ## C7 — login / validate round trip -/

/-- C7: when `login` succeeds, the authenticated user is the one stored
under the presented email, and decoding the returned access token (before
its expiry) yields a payload whose `user_id` is exactly that user's id. -/
theorem C7_login_roundtrip (email password : String) (db : DB)
    (now now2 : Nat) (resp : LoginResponse)
    (hlogin : (login email password db now).2 = .ok resp)
    (hnow : now2 < now + ACCESS_TOKEN_EXPIRE_MINUTES * 60) :
    findUserByEmail email db = some resp.user ∧
    ∃ p, decode_token resp.access_token now2 = .ok p ∧
      p.user_id = some resp.user.id ∧ p.typ = some "access" := by
  unfold login at hlogin
  cases hf : findUserByEmail email db with
  | none => rw [hf] at hlogin; simp at hlogin
  | some u =>
    rw [hf] at hlogin
    cases hv : verify_password password u.hashed_password with
    | false => simp [hv] at hlogin
    | true =>
      cases ha : u.is_active with
      | false => simp [hv, ha] at hlogin
      | true =>
        simp [hv, ha] at hlogin
        subst hlogin
        have hp : decode_token (create_access_token u.id u.email now) now2 =
            .ok { user_id := some u.id, email := some u.email,
                  typ := some "access",
                  exp := some (now + ACCESS_TOKEN_EXPIRE_MINUTES * 60) } := by
          simp [decode_token, jwtDecode, create_access_token, hnow]
        exact ⟨rfl, _, hp, rfl, rfl⟩

/-- C7 witness: logging `user1` in on the fixture and decoding the returned
access token at time 100 recovers `user_id = 1`. -/
theorem C7_witness :
    findUserByEmail "a@x.com" dbEx = some loginRespEx.user ∧
    ∃ p, decode_token loginRespEx.access_token 100 = .ok p ∧
      p.user_id = some loginRespEx.user.id ∧ p.typ = some "access" :=
  C7_login_roundtrip "a@x.com" "longpassword1" dbEx 0 100 loginRespEx
    (by decide) (by decide)

/-! ## C8 — duplicate team membership -/

/-- C8: re-adding a user who already has a membership row on the team fails
with the 400 duplicate-member error and leaves the membership table —
including the existing row's role — exactly as it was. -/
theorem C8_duplicate_member_rejected (teamId : Nat)
    (memberData : TeamMemberAdd) (currentUser : User) (db : DB)
    (newMember : User)
    (hmgr : hasManagingAccess currentUser.id teamId db = true)
    (hfind : findUserByEmail memberData.email db = some newMember)
    (hdup : isMember newMember.id teamId db = true) :
    add_team_member teamId memberData currentUser db =
      (db, .error alreadyMember) ∧
    (add_team_member teamId memberData currentUser db).1.memberships =
      db.memberships := by
  have h : add_team_member teamId memberData currentUser db =
      (db, .error alreadyMember) := by
    unfold add_team_member
    simp [hmgr, hfind, hdup]
  exact ⟨h, by rw [h]⟩

/-- C8 witness: `user1` is already the owner of team 10; adding the same
email again is rejected and the membership rows are untouched. -/
theorem C8_witness :
    add_team_member 10 { email := "a@x.com" } user1 dbEx =
      (dbEx, .error alreadyMember) ∧
    (add_team_member 10 { email := "a@x.com" } user1 dbEx).1.memberships =
      dbEx.memberships :=
  C8_duplicate_member_rejected 10 { email := "a@x.com" } user1 dbEx user1
    (by decide) (by decide) (by decide)

/-! ## C9 — partial-update (frame) semantics over the full patch schema -/

/-- Helper: a patch that explicitly nulls one of the non-nullable columns
(`title`, `status`, `priority`) makes the commit's NOT NULL validation
fail. -/
theorem applyPatchFull_eq_none (patch : TaskUpdateFull) (t : Task)
    (h : patch.title = some none ∨ patch.status = some none ∨
      patch.priority = some none) :
    applyPatchFull patch t = none := by
  rcases ht : patch.title with _ | (_ | v) <;>
  rcases hs : patch.status with _ | (_ | s) <;>
  rcases hp : patch.priority with _ | (_ | q) <;>
  simp_all [applyPatchFull]

/-- Helper: a patch with no explicit null on a non-nullable column commits,
staging exactly the supplied fields onto the row. -/
theorem applyPatchFull_eq_some (patch : TaskUpdateFull) (t : Task)
    (hT : patch.title ≠ some none) (hS : patch.status ≠ some none)
    (hP : patch.priority ≠ some none) :
    applyPatchFull patch t = some { t with
      title := (match patch.title with
        | some (some v) => v | _ => t.title),
      status := (match patch.status with
        | some (some s) => s | _ => t.status),
      priority := (match patch.priority with
        | some (some q) => q | _ => t.priority),
      description := patch.description.getD t.description,
      assigned_to := patch.assigned_to.getD t.assigned_to,
      due_date := patch.due_date.getD t.due_date } := by
  rcases ht : patch.title with _ | (_ | v) <;>
  rcases hs : patch.status with _ | (_ | s) <;>
  rcases hp : patch.priority with _ | (_ | q) <;>
  simp_all [applyPatchFull]

/-- Helper: `update_task` (over the restricted patch type, which cannot
null a non-nullable column) is exactly the restriction of
`update_task_full` along `TaskUpdate.toFull`. -/
theorem update_task_toFull_agrees (taskId : Nat) (patch : TaskUpdate)
    (currentUser : User) (db : DB) (pubOk : Bool) :
    update_task_full taskId patch.toFull currentUser db pubOk =
      update_task taskId patch currentUser db pubOk := by
  have happ : ∀ t, applyPatchFull patch.toFull t = some (applyPatch patch t) := by
    intro t
    rcases ht : patch.title with _ | v <;>
    rcases hs : patch.status with _ | s <;>
    rcases hp : patch.priority with _ | q <;>
    simp_all [applyPatchFull, applyPatch, TaskUpdate.toFull]
  unfold update_task_full update_task
  cases hfind : findTaskScoped taskId currentUser.id db with
  | none => rfl
  | some t =>
    have hv : versionCheckFailsFull patch.toFull t = versionCheckFails patch t :=
      rfl
    cases hvc : versionCheckFails patch t with
    | true => simp [hv, hvc]
    | false => simp [hv, hvc, happ t]

/-- C9 (amended): for a successful resolve and version check, a patch that
does *not* null a non-nullable column writes exactly the fields present in
it — explicit null on a nullable column is written as null, absent fields
keep their prior values (among the caller-writable columns; the
database-managed `updated_at` is refreshed by `onupdate`) — and bumps the
version by 1; but a patch that explicitly nulls `title`, `status` or
`priority` (which the pydantic schema accepts) aborts at commit with an
uncaught `IntegrityError`: the request fails and nothing at all is
written. -/
theorem C9_explicit_null_semantics (taskId : Nat) (patch : TaskUpdateFull)
    (currentUser : User) (db : DB) (pubOk : Bool) (t : Task)
    (hfind : findTaskScoped taskId currentUser.id db = some t)
    (hver : versionCheckFailsFull patch t = false) :
    ((patch.title = some none ∨ patch.status = some none ∨
        patch.priority = some none) →
      update_task_full taskId patch currentUser db pubOk =
        (db, .error (.raised "IntegrityError"))) ∧
    (patch.title ≠ some none → patch.status ≠ some none →
     patch.priority ≠ some none →
      ∃ t', update_task_full taskId patch currentUser db pubOk =
          (replaceTask t' db,
           if pubOk then .ok t'
           else .error (.raised "redis.ConnectionError")) ∧
        t'.id = t.id ∧ t'.project_id = t.project_id ∧
        t'.created_by = t.created_by ∧
        t'.title = (match patch.title with
          | some (some v) => v | _ => t.title) ∧
        t'.description = (match patch.description with
          | none => t.description | some d => d) ∧
        t'.status = (match patch.status with
          | some (some s) => s | _ => t.status) ∧
        t'.priority = (match patch.priority with
          | some (some q) => q | _ => t.priority) ∧
        t'.assigned_to = (match patch.assigned_to with
          | none => t.assigned_to | some a => a) ∧
        t'.due_date = (match patch.due_date with
          | none => t.due_date | some d => d) ∧
        t'.version = t.version + 1) := by
  constructor
  · intro h
    unfold update_task_full
    rw [hfind]
    simp [hver, applyPatchFull_eq_none patch t h]
  · intro hT hS hP
    refine ⟨{ t with
        title := (match patch.title with
          | some (some v) => v | _ => t.title),
        status := (match patch.status with
          | some (some s) => s | _ => t.status),
        priority := (match patch.priority with
          | some (some q) => q | _ => t.priority),
        description := patch.description.getD t.description,
        assigned_to := patch.assigned_to.getD t.assigned_to,
        due_date := patch.due_date.getD t.due_date,
        version := t.version + 1 },
      ?_, rfl, rfl, rfl, rfl, ?_, rfl, rfl, ?_, ?_, rfl⟩
    · unfold update_task_full
      rw [hfind]
      cases pubOk <;>
        simp [hver, applyPatchFull_eq_some patch t hT hS hP, publish_event]
    · cases hx : patch.description <;> simp [hx]
    · cases hx : patch.assigned_to <;> simp [hx]
    · cases hx : patch.due_date <;> simp [hx]

/-- C9 witness: on the fixture task (description `some "orig"`), a patch
carrying an explicit null description and a new status changes exactly
those two attributes: the title and assignee are untouched, the explicit
null on the nullable column is written as null, and the version moves from
1 to 2. -/
theorem C9_null_witness :
    ∃ t', update_task_full 30
        { description := some none,
          status := some (some TaskStatus.in_progress), version := some 1 }
        user1 dbEx true = (replaceTask t' dbEx, .ok t') ∧
      t'.title = taskK.title ∧ t'.description = none ∧
      t'.status = TaskStatus.in_progress ∧
      t'.assigned_to = taskK.assigned_to ∧
      t'.version = taskK.version + 1 := by
  obtain ⟨t', hrun, hid, hproj, hcreat, htitle, hdesc, hstat, hprio, hass,
    hdue, hver⟩ :=
    (C9_explicit_null_semantics 30
      { description := some none,
        status := some (some TaskStatus.in_progress), version := some 1 }
      user1 dbEx true taskK (by decide) (by decide)).2
      (by decide) (by decide) (by decide)
  exact ⟨t', hrun, htitle, hdesc, hstat, hass, hver⟩

/-- C9 counterexample: the pydantic schema accepts `{"title": null}`, an
explicit null on a NOT NULL column; the claim says this null is written,
but the commit raises `IntegrityError` — the stored task is unchanged
(title still `"K"`) and the outcome is the escaped 500, not success. -/
theorem C9_counterexample :
    update_task_full 30 { title := some none } user1 dbEx true =
      (dbEx, .error (.raised "IntegrityError")) ∧
    ((update_task_full 30 { title := some none } user1 dbEx true).1.tasks.find?
        (fun t => t.id = 30)) = some taskK ∧
    ∀ t : Task,
      (update_task_full 30 { title := some none } user1 dbEx true).2 ≠
        .ok t := by
  refine ⟨by decide, by decide, ?_⟩
  intro t h
  rw [show (update_task_full 30 { title := some none } user1 dbEx true).2 =
      .error (.raised "IntegrityError") from by decide] at h
  exact Except.noConfusion h

/-! ## C10 — the verify endpoint's error behaviour -/

/-- C10: the failing input for the claim — a bearer header whose token is
not a decodable JWT makes `decode_token` raise `JWTError`, which the
`except HTTPException` in `verify_token` does not catch, so the endpoint
produces an escaped-exception (500) outcome instead of `valid = false`. -/
theorem C10_verify_error_escapes :
    verify_token (.bearer (.malformed "not-a-jwt")) dbEx 0 =
      .error (.raised "JWTError") := by
  decide

end Collab
